import Mathlib

/-!
# VKFS frame synchronisation controller

A shallow embedding of `src/Synchronization.cpp` (class `VKFS::Synchronization`).

The controller owns four mutable fields (`currentFrame`, `windowWidth`,
`windowHeight`, `computeInUse`) and talks to the Vulkan device, the command
buffer source and the swap-chain.  Every member function is embedded as a pure
function that takes the entry state together with the results the device hands
back, and returns the exit state, the list of device calls it made (in order)
and either its return value or the `std::runtime_error` it threw.

The synchronisation objects are created once in the constructor, two of each
kind, and are never replaced, so a handle is identified by its kind and its
index in the owning vector.
-/

namespace VKFS

/-! ## Vulkan values used by the controller -/

/-- Result code of a Vulkan call (`VkResult`, a 32-bit signed enumeration). -/
abbrev VkResult := Int

/-- Vulkan `VK_SUCCESS`. -/
def VK_SUCCESS : VkResult := 0

/-- Vulkan `VK_SUBOPTIMAL_KHR`. -/
def VK_SUBOPTIMAL_KHR : VkResult := 1000001003

/-- Vulkan `VK_ERROR_OUT_OF_DATE_KHR`. -/
def VK_ERROR_OUT_OF_DATE_KHR : VkResult := -1000001004

/-- Vulkan `VK_PIPELINE_STAGE_COLOR_ATTACHMENT_OUTPUT_BIT`. -/
def VK_PIPELINE_STAGE_COLOR_ATTACHMENT_OUTPUT_BIT : Nat := 0x400

/-- Conversion of a signed value to `uint32_t` (reduction modulo `2^32`). -/
def toUint32 (i : Int) : Nat := (i % 4294967296).toNat

/-- Semaphores held by the controller: element `i` of the named vector. -/
inductive Semaphore where
  | imageAvailable (i : Nat)
  | renderFinished (i : Nat)
  | computeFinished (i : Nat)
  deriving DecidableEq, Repr

/-- Fences held by the controller: element `i` of the named vector. -/
inductive Fence where
  | inFlight (i : Nat)
  | computeInFlight (i : Nat)
  deriving DecidableEq, Repr

/-- Command buffers of the command source: `cmd->commandBuffers[i]` and
`cmd->computeBuffers[i]`. -/
inductive CommandBuffer where
  | commandBuffers (i : Nat)
  | computeBuffers (i : Nat)
  deriving DecidableEq, Repr

/-- Queues of the device. -/
inductive Queue where
  | graphics
  | compute
  | present
  deriving DecidableEq, Repr

/-- The fields of `VkSubmitInfo` the controller fills in.  The pointer fields
are the arrays they point at; the count fields are kept beside them, as in the
C structure. -/
structure SubmitInfo where
  waitSemaphoreCount : Nat
  pWaitSemaphores : List Semaphore
  pWaitDstStageMask : List Nat
  commandBufferCount : Nat
  pCommandBuffers : List CommandBuffer
  signalSemaphoreCount : Nat
  pSignalSemaphores : List Semaphore
  deriving DecidableEq, Repr

/-- The fields of `VkPresentInfoKHR` the controller fills in. -/
structure PresentInfo where
  waitSemaphoreCount : Nat
  pWaitSemaphores : List Semaphore
  swapchainCount : Nat
  imageIndex : Nat
  deriving DecidableEq, Repr

/-- The semaphores a submission waits on: the first `waitSemaphoreCount`
elements of `pWaitSemaphores`. -/
def SubmitInfo.waitSet (info : SubmitInfo) : List Semaphore :=
  info.pWaitSemaphores.take info.waitSemaphoreCount

/-- The semaphores a submission signals. -/
def SubmitInfo.signalSet (info : SubmitInfo) : List Semaphore :=
  info.pSignalSemaphores.take info.signalSemaphoreCount

/-- The command buffers a submission executes. -/
def SubmitInfo.buffers (info : SubmitInfo) : List CommandBuffer :=
  info.pCommandBuffers.take info.commandBufferCount

/-- The semaphores a presentation waits on. -/
def PresentInfo.waitSet (info : PresentInfo) : List Semaphore :=
  info.pWaitSemaphores.take info.waitSemaphoreCount

/-- The stage at which the `i`-th wait semaphore of a submission is gated: the
device reads element `i` of `pWaitDstStageMask`; `none` is a read past the end
of the array. -/
def SubmitInfo.waitStage (info : SubmitInfo) (i : Nat) : Option Nat :=
  info.pWaitDstStageMask[i]?

/-- Calls the controller makes on its collaborators, as they appear in the
source. -/
inductive DeviceCall where
  | vkWaitForFences (fence : Fence)
  | vkAcquireNextImageKHR (semaphore : Semaphore)
  | vkResetFences (fence : Fence)
  | vkResetCommandBuffer (buffer : CommandBuffer)
  | vkBeginCommandBuffer (buffer : CommandBuffer)
  | vkEndCommandBuffer (buffer : CommandBuffer)
  | vkQueueSubmit (queue : Queue) (info : SubmitInfo) (fence : Fence)
  | vkQueuePresentKHR (queue : Queue) (info : PresentInfo)
  | recreate (width height : Int)
  deriving DecidableEq, Repr

/-- The `std::runtime_error`s thrown by the controller, one per message. -/
inductive Fault where
  /-- Message "[VKFS] Failed to acquire swapchain image!" -/
  | failedAcquire
  /-- Message "[VKFS] The window size must be passed to the Sync object using the
  pushWindowSize() method every frame!" -/
  | windowSizeNotPushed
  /-- Message "[VKFS] Failed to submit draw command buffer!" -/
  | failedSubmitDraw
  /-- Message "[VKFS] Failed to present swap chain image!" -/
  | failedPresent
  /-- Message "[VKFS] Failed to begin recording command buffer!" -/
  | failedBeginRecording
  /-- Message "[VKFS] Failed to record command buffer!" -/
  | failedRecord
  /-- Message "[VKFS] Failed to submit compute command buffer!" -/
  | failedSubmitCompute
  /-- Message "[VKFS] Failed to begin recording compute command buffer!" -/
  | failedBeginRecordingCompute
  /-- Message "[VKFS] Failed to record compute command buffer!" -/
  | failedRecordCompute
  deriving DecidableEq, Repr

/-- Value returned by a member function. -/
inductive Ret where
  | void
  | uint32 (n : Nat)
  | buffer (b : CommandBuffer)
  deriving DecidableEq, Repr

/-! ## The controller -/

/-- The mutable fields of `VKFS::Synchronization`.  Their declarations are in
`include/VKFS/Synchronization.h`, which is not among the sources; the types are
read off their uses: `currentFrame` is an index returned as `uint32_t`,
`windowWidth` and `windowHeight` are the `int` arguments of `pushWindowSize`,
`computeInUse` is a boolean.  `currentFrame` only ever takes the values
assigned by `(currentFrame + 1) % 2`, whose parity does not depend on the width
of the machine integer, so it is kept as a natural number. -/
structure Synchronization where
  currentFrame : Nat
  windowWidth : Int
  windowHeight : Int
  computeInUse : Bool
  deriving DecidableEq, Repr

/-- Modelled from the spec: the default member initialisers of
`include/VKFS/Synchronization.h`, which is not among the sources.  The active
slot starts at 0, the pending extent holds the unset value -1 in both
components and the compute flag is false. -/
def fresh : Synchronization :=
  { currentFrame := 0, windowWidth := -1, windowHeight := -1, computeInUse := false }

/-- What one member function call did: the exit state, the device calls made
and the value returned or the error thrown. -/
structure Outcome where
  state : Synchronization
  trace : List DeviceCall
  result : Except Fault Ret

/-- Whether the call returned normally. -/
def Outcome.returned (o : Outcome) : Bool :=
  match o.result with
  | .ok _ => true
  | .error _ => false

/-- Embedding of `Synchronization::waitForFences`. -/
def waitForFences (s : Synchronization) : Outcome :=
  { state := s
    trace := [.vkWaitForFences (.inFlight s.currentFrame)]
    result := .ok .void }

/-- Embedding of `Synchronization::acquireNextImage`.  `result` is what
`vkAcquireNextImageKHR` returns and `imageIndex` what it stores through its
output pointer. -/
def acquireNextImage (s : Synchronization) (result : VkResult) (imageIndex : Nat) : Outcome :=
  let call := DeviceCall.vkAcquireNextImageKHR (.imageAvailable s.currentFrame)
  if result = VK_ERROR_OUT_OF_DATE_KHR then
    { state := s
      trace := [call, .recreate s.windowWidth s.windowHeight]
      result := .ok (.uint32 (toUint32 (-1))) }
  else if result ≠ VK_SUCCESS ∧ result ≠ VK_SUBOPTIMAL_KHR then
    { state := s, trace := [call], result := .error .failedAcquire }
  else
    { state := s, trace := [call], result := .ok (.uint32 imageIndex) }

/-- Embedding of `Synchronization::getCommandBuffer`. -/
def getCommandBuffer (s : Synchronization) : CommandBuffer :=
  .commandBuffers s.currentFrame

/-- Embedding of `Synchronization::getComputeCommandBuffer`. -/
def getComputeCommandBuffer (s : Synchronization) : CommandBuffer :=
  .computeBuffers s.currentFrame

/-- Embedding of `Synchronization::resetAll`. -/
def resetAll (s : Synchronization) : Outcome :=
  { state := s
    trace := [.vkResetFences (.inFlight s.currentFrame),
              .vkResetCommandBuffer (.commandBuffers s.currentFrame)]
    result := .ok .void }

/-- Embedding of `Synchronization::submit`.  `submitResult` is what
`vkQueueSubmit` returns and `presentResult` what `vkQueuePresentKHR` returns. -/
def submit (s : Synchronization) (imageIndex : Nat) (submitResult presentResult : VkResult) :
    Outcome :=
  if s.windowWidth = -1 ∨ s.windowHeight = -1 then
    { state := s, trace := [], result := .error .windowSizeNotPushed }
  else
    let waitSemaphoresCompute : List Semaphore :=
      [.imageAvailable s.currentFrame, .computeFinished s.currentFrame]
    let waitSemaphores : List Semaphore := [.imageAvailable s.currentFrame]
    let waitStages : List Nat := [VK_PIPELINE_STAGE_COLOR_ATTACHMENT_OUTPUT_BIT]
    let signalSemaphores : List Semaphore := [.renderFinished s.currentFrame]
    let submitInfo : SubmitInfo :=
      { waitSemaphoreCount := if s.computeInUse then 2 else 1
        pWaitSemaphores := if s.computeInUse then waitSemaphoresCompute else waitSemaphores
        pWaitDstStageMask := waitStages
        commandBufferCount := 1
        pCommandBuffers := [.commandBuffers s.currentFrame]
        signalSemaphoreCount := 1
        pSignalSemaphores := signalSemaphores }
    let s1 : Synchronization := { s with computeInUse := false }
    let submitCall :=
      DeviceCall.vkQueueSubmit .graphics submitInfo (.inFlight s.currentFrame)
    if submitResult ≠ VK_SUCCESS then
      { state := s1, trace := [submitCall], result := .error .failedSubmitDraw }
    else
      let presentInfo : PresentInfo :=
        { waitSemaphoreCount := 1
          pWaitSemaphores := signalSemaphores
          swapchainCount := 1
          imageIndex := imageIndex }
      let presentCall := DeviceCall.vkQueuePresentKHR .present presentInfo
      if presentResult = VK_ERROR_OUT_OF_DATE_KHR ∨ presentResult = VK_SUBOPTIMAL_KHR then
        { state := { s1 with currentFrame := (s1.currentFrame + 1) % 2 }
          trace := [submitCall, presentCall, .recreate s1.windowWidth s1.windowHeight]
          result := .ok .void }
      else if presentResult ≠ VK_SUCCESS then
        { state := s1, trace := [submitCall, presentCall], result := .error .failedPresent }
      else
        { state := { s1 with currentFrame := (s1.currentFrame + 1) % 2 }
          trace := [submitCall, presentCall]
          result := .ok .void }

/-- Embedding of `Synchronization::beginRecordingCommands`. -/
def beginRecordingCommands (s : Synchronization) (result : VkResult) : Outcome :=
  { state := s
    trace := [.vkBeginCommandBuffer (getCommandBuffer s)]
    result := if result ≠ VK_SUCCESS then .error .failedBeginRecording else .ok .void }

/-- Embedding of `Synchronization::endRecordingCommands`. -/
def endRecordingCommands (s : Synchronization) (result : VkResult) : Outcome :=
  { state := s
    trace := [.vkEndCommandBuffer (getCommandBuffer s)]
    result := if result ≠ VK_SUCCESS then .error .failedRecord else .ok .void }

/-- Embedding of `Synchronization::getCurrentFrame`. -/
def getCurrentFrame (s : Synchronization) : Nat :=
  s.currentFrame

/-- Embedding of `Synchronization::pushWindowSize`. -/
def pushWindowSize (s : Synchronization) (width height : Int) : Outcome :=
  { state := { s with windowWidth := width, windowHeight := height }
    trace := []
    result := .ok .void }

/-- Embedding of `Synchronization::submitCompute`. -/
def submitCompute (s : Synchronization) (result : VkResult) : Outcome :=
  let submitInfo : SubmitInfo :=
    { waitSemaphoreCount := 0
      pWaitSemaphores := []
      pWaitDstStageMask := []
      commandBufferCount := 1
      pCommandBuffers := [.computeBuffers s.currentFrame]
      signalSemaphoreCount := 1
      pSignalSemaphores := [.computeFinished s.currentFrame] }
  { state := s
    trace := [.vkQueueSubmit .compute submitInfo (.computeInFlight s.currentFrame)]
    result := if result ≠ VK_SUCCESS then .error .failedSubmitCompute else .ok .void }

/-- Embedding of `Synchronization::resetCompute`. -/
def resetCompute (s : Synchronization) : Outcome :=
  { state := s
    trace := [.vkResetFences (.computeInFlight s.currentFrame),
              .vkResetCommandBuffer (getComputeCommandBuffer s)]
    result := .ok .void }

/-- Embedding of `Synchronization::waitCompute`. -/
def waitCompute (s : Synchronization) : Outcome :=
  { state := s
    trace := [.vkWaitForFences (.computeInFlight s.currentFrame)]
    result := .ok .void }

/-- Embedding of `Synchronization::beginRecordingCompute`.  The flag is set
before the command buffer is opened, so it is set even when opening fails. -/
def beginRecordingCompute (s : Synchronization) (result : VkResult) : Outcome :=
  let s1 : Synchronization := { s with computeInUse := true }
  { state := s1
    trace := [.vkBeginCommandBuffer (getComputeCommandBuffer s1)]
    result := if result ≠ VK_SUCCESS then .error .failedBeginRecordingCompute else .ok .void }

/-- Embedding of `Synchronization::endRecordingCompute`. -/
def endRecordingCompute (s : Synchronization) (result : VkResult) : Outcome :=
  { state := s
    trace := [.vkEndCommandBuffer (getComputeCommandBuffer s)]
    result := if result ≠ VK_SUCCESS then .error .failedRecordCompute else .ok .void }

/-! ## Sequences of calls -/

/-- One call of a public member function by the client, together with the
results the device returns to the calls made inside it. -/
inductive Call where
  | waitForFences
  | acquireNextImage (result : VkResult) (imageIndex : Nat)
  | getCommandBuffer
  | resetAll
  | submit (imageIndex : Nat) (submitResult presentResult : VkResult)
  | beginRecordingCommands (result : VkResult)
  | endRecordingCommands (result : VkResult)
  | getCurrentFrame
  | pushWindowSize (width height : Int)
  | submitCompute (result : VkResult)
  | resetCompute
  | waitCompute
  | getComputeCommandBuffer
  | beginRecordingCompute (result : VkResult)
  | endRecordingCompute (result : VkResult)
  deriving DecidableEq, Repr

/-- Dispatch of a client call to the member function it names. -/
def step (s : Synchronization) : Call → Outcome
  | .waitForFences => waitForFences s
  | .acquireNextImage r i => acquireNextImage s r i
  | .getCommandBuffer => { state := s, trace := [], result := .ok (.buffer (getCommandBuffer s)) }
  | .resetAll => resetAll s
  | .submit i r p => submit s i r p
  | .beginRecordingCommands r => beginRecordingCommands s r
  | .endRecordingCommands r => endRecordingCommands s r
  | .getCurrentFrame => { state := s, trace := [], result := .ok (.uint32 (getCurrentFrame s)) }
  | .pushWindowSize w h => pushWindowSize s w h
  | .submitCompute r => submitCompute s r
  | .resetCompute => resetCompute s
  | .waitCompute => waitCompute s
  | .getComputeCommandBuffer =>
      { state := s, trace := [], result := .ok (.buffer (getComputeCommandBuffer s)) }
  | .beginRecordingCompute r => beginRecordingCompute s r
  | .endRecordingCompute r => endRecordingCompute s r

/-- The controller state after a sequence of client calls.  A call that throws
leaves the fields as they were at the throw; the client may catch the error
and go on calling. -/
def run (s : Synchronization) : List Call → Synchronization
  | [] => s
  | c :: cs => run (step s c).state cs

/-- All device calls made during a sequence of client calls, in order. -/
def runTrace (s : Synchronization) : List Call → List DeviceCall
  | [] => []
  | c :: cs => (step s c).trace ++ runTrace (step s c).state cs

/-- Whether a client call is a `submit`. -/
def Call.isSubmit : Call → Bool
  | .submit _ _ _ => true
  | _ => false

/-- Number of `submit` calls of a sequence that returned normally, that is,
that got through their presentation. -/
def completedSubmits (s : Synchronization) : List Call → Nat
  | [] => 0
  | c :: cs =>
      (if c.isSubmit && (step s c).returned then 1 else 0) + completedSubmits (step s c).state cs

/-- The extent check at the head of `submit` passes. -/
def extentSet (s : Synchronization) : Prop :=
  ¬ (s.windowWidth = -1 ∨ s.windowHeight = -1)

instance (s : Synchronization) : Decidable (extentSet s) := by
  unfold extentSet; infer_instance

/-- The graphics submissions found in a list of device calls. -/
def graphicsSubmissions : List DeviceCall → List (SubmitInfo × Fence)
  | [] => []
  | .vkQueueSubmit .graphics info fence :: rest => (info, fence) :: graphicsSubmissions rest
  | _ :: rest => graphicsSubmissions rest

/-- The presentations found in a list of device calls. -/
def presentations : List DeviceCall → List PresentInfo
  | [] => []
  | .vkQueuePresentKHR _ info :: rest => info :: presentations rest
  | _ :: rest => presentations rest

/-- The extents passed to the swap-chain's `recreate` in a list of device
calls. -/
def recreations : List DeviceCall → List (Int × Int)
  | [] => []
  | .recreate w h :: rest => (w, h) :: recreations rest
  | _ :: rest => recreations rest

/-- The queue submissions (any queue) found in a list of device calls. -/
def queueSubmissions : List DeviceCall → List SubmitInfo
  | [] => []
  | .vkQueueSubmit _ info _ :: rest => info :: queueSubmissions rest
  | _ :: rest => queueSubmissions rest

/-- Whether a client call is a `pushWindowSize`. -/
def Call.isPushWindowSize : Call → Bool
  | .pushWindowSize _ _ => true
  | _ => false

/-- Index of a semaphore in its vector. -/
def Semaphore.slot : Semaphore → Nat
  | .imageAvailable i => i
  | .renderFinished i => i
  | .computeFinished i => i

/-- Index of a fence in its vector. -/
def Fence.slot : Fence → Nat
  | .inFlight i => i
  | .computeInFlight i => i

/-- Index of a command buffer in its vector. -/
def CommandBuffer.slot : CommandBuffer → Nat
  | .commandBuffers i => i
  | .computeBuffers i => i

/-- The vector indices of every semaphore, fence and command buffer handed to
a device call (all array elements, whether or not the count reaches them). -/
def DeviceCall.slots : DeviceCall → List Nat
  | .vkWaitForFences f => [f.slot]
  | .vkAcquireNextImageKHR sem => [sem.slot]
  | .vkResetFences f => [f.slot]
  | .vkResetCommandBuffer b => [b.slot]
  | .vkBeginCommandBuffer b => [b.slot]
  | .vkEndCommandBuffer b => [b.slot]
  | .vkQueueSubmit _ info f =>
      info.pWaitSemaphores.map Semaphore.slot ++ info.pCommandBuffers.map CommandBuffer.slot ++
        info.pSignalSemaphores.map Semaphore.slot ++ [f.slot]
  | .vkQueuePresentKHR _ info => info.pWaitSemaphores.map Semaphore.slot
  | .recreate _ _ => []

/-! ## Properties -/

/-- The three result codes the controller tests for are pairwise distinct. -/
theorem result_codes_distinct :
    VK_SUCCESS ≠ VK_ERROR_OUT_OF_DATE_KHR ∧ VK_SUCCESS ≠ VK_SUBOPTIMAL_KHR ∧
      VK_SUBOPTIMAL_KHR ≠ VK_ERROR_OUT_OF_DATE_KHR ∧ VK_ERROR_OUT_OF_DATE_KHR ≠ VK_SUCCESS ∧
      VK_SUBOPTIMAL_KHR ≠ VK_SUCCESS ∧ VK_ERROR_OUT_OF_DATE_KHR ≠ VK_SUBOPTIMAL_KHR := by
  decide

/-- C1: on a state that passes the extent check, `submit` issues one graphics
submission, fenced by `inFlightFences[s]`; it waits on exactly
`imageAvailable[s], computeFinished[s]` when `computeInUse` holds on entry and
on exactly `imageAvailable[s]` otherwise, executes `commandBuffers[s]` and
signals exactly `renderFinished[s]`; every presentation issued waits on
exactly `renderFinished[s]`, one is issued whenever the queue submission
succeeds, and every primitive handed to the device belongs to slot `s`. -/
theorem submit_uses_active_slot (s : Synchronization) (imageIndex : Nat)
    (submitResult presentResult : VkResult) (h : extentSet s) :
    ∃ info : SubmitInfo,
      graphicsSubmissions (submit s imageIndex submitResult presentResult).trace
          = [(info, Fence.inFlight s.currentFrame)] ∧
      queueSubmissions (submit s imageIndex submitResult presentResult).trace = [info] ∧
      info.waitSet =
        (if s.computeInUse
          then [Semaphore.imageAvailable s.currentFrame, Semaphore.computeFinished s.currentFrame]
          else [Semaphore.imageAvailable s.currentFrame]) ∧
      info.buffers = [CommandBuffer.commandBuffers s.currentFrame] ∧
      info.signalSet = [Semaphore.renderFinished s.currentFrame] ∧
      (∀ p ∈ presentations (submit s imageIndex submitResult presentResult).trace,
        p.waitSet = [Semaphore.renderFinished s.currentFrame]) ∧
      (submitResult = VK_SUCCESS →
        (presentations (submit s imageIndex submitResult presentResult).trace).length = 1) ∧
      (∀ c ∈ (submit s imageIndex submitResult presentResult).trace,
        ∀ i ∈ c.slots, i = s.currentFrame) := by
  have hx : ¬ (s.windowWidth = -1 ∨ s.windowHeight = -1) := h
  unfold submit
  rw [if_neg hx]
  cases hc : s.computeInUse <;>
    by_cases h1 : submitResult = VK_SUCCESS <;>
    by_cases h2 : presentResult = VK_ERROR_OUT_OF_DATE_KHR ∨ presentResult = VK_SUBOPTIMAL_KHR <;>
    by_cases h3 : presentResult = VK_SUCCESS <;>
    simp [h1, h2, h3, result_codes_distinct, graphicsSubmissions, queueSubmissions, presentations,
      SubmitInfo.waitSet, SubmitInfo.buffers, SubmitInfo.signalSet, PresentInfo.waitSet,
      DeviceCall.slots, Semaphore.slot, Fence.slot, CommandBuffer.slot]

/-- Witness for C1: slot 1 with a pending compute pass and an 800x600 extent. -/
theorem submit_uses_active_slot_witness :
    extentSet ⟨1, 800, 600, true⟩ ∧
    ∃ info : SubmitInfo,
      graphicsSubmissions (submit ⟨1, 800, 600, true⟩ 2 VK_SUCCESS VK_SUCCESS).trace
          = [(info, Fence.inFlight 1)] ∧
      info.waitSet = [Semaphore.imageAvailable 1, Semaphore.computeFinished 1] := by
  refine ⟨by decide, ?_⟩
  obtain ⟨info, h1, _, h3, _⟩ :=
    submit_uses_active_slot ⟨1, 800, 600, true⟩ 2 VK_SUCCESS VK_SUCCESS (by decide)
  exact ⟨info, h1, by simpa using h3⟩

/-- No member function other than `submit` writes `currentFrame`. -/
theorem step_currentFrame_of_not_submit (t : Synchronization) (c : Call)
    (hc : c.isSubmit = false) : (step t c).state.currentFrame = t.currentFrame := by
  cases c <;> simp_all [Call.isSubmit, step, waitForFences, acquireNextImage, resetAll,
    beginRecordingCommands, endRecordingCommands, pushWindowSize, submitCompute, resetCompute,
    waitCompute, beginRecordingCompute, endRecordingCompute]
  split_ifs <;> rfl

/-- What `submit` does to `currentFrame`: one step modulo 2 when it returns
normally, nothing when it throws. -/
theorem submit_currentFrame (t : Synchronization) (i : Nat) (r p : VkResult) :
    (submit t i r p).state.currentFrame =
      if (submit t i r p).returned then (t.currentFrame + 1) % 2 else t.currentFrame := by
  unfold submit
  by_cases hx : t.windowWidth = -1 ∨ t.windowHeight = -1 <;>
    by_cases h1 : r = VK_SUCCESS <;>
    by_cases h2 : p = VK_ERROR_OUT_OF_DATE_KHR ∨ p = VK_SUBOPTIMAL_KHR <;>
    by_cases h3 : p = VK_SUCCESS <;>
    simp [hx, h1, h2, h3, result_codes_distinct, Outcome.returned]

/-- Each call moves `currentFrame` by the number of completed submits it
contains (none or one), modulo 2. -/
theorem step_currentFrame (t : Synchronization) (c : Call) (ht : t.currentFrame < 2) :
    (step t c).state.currentFrame =
      (t.currentFrame + (if c.isSubmit && (step t c).returned then 1 else 0)) % 2 := by
  cases hc : c.isSubmit
  · rw [step_currentFrame_of_not_submit t c hc]
    simp [Nat.mod_eq_of_lt ht]
  · cases c <;> simp [Call.isSubmit] at hc
    simp only [step, Call.isSubmit, Bool.true_and]
    rw [submit_currentFrame]
    split_ifs
    · rfl
    · simp [Nat.mod_eq_of_lt ht]

/-- Over a sequence of calls `currentFrame` moves by the number of completed
submits, modulo 2. -/
theorem run_currentFrame (calls : List Call) :
    ∀ t : Synchronization, t.currentFrame < 2 →
      (run t calls).currentFrame = (t.currentFrame + completedSubmits t calls) % 2 := by
  induction calls with
  | nil => intro t ht; simp [run, completedSubmits, Nat.mod_eq_of_lt ht]
  | cons c cs ih =>
    intro t ht
    have hstep := step_currentFrame t c ht
    have hlt : (step t c).state.currentFrame < 2 := by
      rw [hstep]; exact Nat.mod_lt _ (by decide)
    simp only [run, completedSubmits]
    rw [ih _ hlt, hstep, Nat.mod_add_mod, Nat.add_assoc]

/-- C2: starting from active slot 0, after every prefix of every sequence of
controller calls with arbitrary device results the active slot is 0 or 1; the
slot after the whole sequence is the number of submit calls that returned
normally, modulo 2; no call other than submit changes it; a submit moves it by
exactly one step modulo 2 when it returns normally and not at all when it
throws; an acquireNextImage (skip sentinel or not) leaves it alone. -/
theorem currentFrame_alternates (s : Synchronization) (calls : List Call)
    (h0 : s.currentFrame = 0) :
    (∀ k : Nat, (run s (calls.take k)).currentFrame = 0 ∨
        (run s (calls.take k)).currentFrame = 1) ∧
    (run s calls).currentFrame = completedSubmits s calls % 2 ∧
    (∀ (t : Synchronization) (c : Call), c.isSubmit = false →
        (step t c).state.currentFrame = t.currentFrame) ∧
    (∀ (t : Synchronization) (i : Nat) (r p : VkResult),
        (submit t i r p).state.currentFrame =
          if (submit t i r p).returned then (t.currentFrame + 1) % 2 else t.currentFrame) ∧
    (∀ (t : Synchronization) (r : VkResult) (i : Nat),
        (acquireNextImage t r i).state.currentFrame = t.currentFrame) := by
  have hlt : s.currentFrame < 2 := by omega
  refine ⟨?_, ?_, step_currentFrame_of_not_submit, submit_currentFrame, ?_⟩
  · intro k
    have h := run_currentFrame (calls.take k) s hlt
    have h2 : (s.currentFrame + completedSubmits s (calls.take k)) % 2 < 2 :=
      Nat.mod_lt _ (by decide)
    omega
  · have h := run_currentFrame calls s hlt
    rw [h, h0, Nat.zero_add]
  · intro t r i
    exact step_currentFrame_of_not_submit t (.acquireNextImage r i) rfl

/-- Witness for C2: three frames, the second skipped at acquisition and the
third presented on an out-of-date surface; two submits complete, so the slot is
back at 0. -/
theorem currentFrame_alternates_witness :
    (run fresh
        [.pushWindowSize 800 600, .acquireNextImage VK_SUCCESS 0, .submit 0 VK_SUCCESS VK_SUCCESS,
         .acquireNextImage VK_ERROR_OUT_OF_DATE_KHR 0,
         .acquireNextImage VK_SUCCESS 1,
         .submit 1 VK_SUCCESS VK_ERROR_OUT_OF_DATE_KHR]).currentFrame
      = completedSubmits fresh
        [.pushWindowSize 800 600, .acquireNextImage VK_SUCCESS 0, .submit 0 VK_SUCCESS VK_SUCCESS,
         .acquireNextImage VK_ERROR_OUT_OF_DATE_KHR 0,
         .acquireNextImage VK_SUCCESS 1,
         .submit 1 VK_SUCCESS VK_ERROR_OUT_OF_DATE_KHR] % 2 ∧
    completedSubmits fresh
        [.pushWindowSize 800 600, .acquireNextImage VK_SUCCESS 0, .submit 0 VK_SUCCESS VK_SUCCESS,
         .acquireNextImage VK_ERROR_OUT_OF_DATE_KHR 0,
         .acquireNextImage VK_SUCCESS 1,
         .submit 1 VK_SUCCESS VK_ERROR_OUT_OF_DATE_KHR] = 2 :=
  ⟨(currentFrame_alternates fresh _ rfl).2.1, by decide⟩

/-- C4: `acquireNextImage` hands `imageAvailable[currentFrame]` to the acquire
call, makes no queue submission and no presentation, and leaves every field of
the controller as it was.  On out-of-date it calls `recreate` once, with the
pending width and height, and returns 4294967295; on success or suboptimal it
returns the index delivered by the acquire call and does not call `recreate`;
on every other result it throws the acquisition error. -/
theorem acquireNextImage_outcomes (s : Synchronization) (result : VkResult) (imageIndex : Nat) :
    (acquireNextImage s result imageIndex).state = s ∧
    (acquireNextImage s result imageIndex).trace =
      DeviceCall.vkAcquireNextImageKHR (Semaphore.imageAvailable s.currentFrame) ::
        (if result = VK_ERROR_OUT_OF_DATE_KHR
          then [DeviceCall.recreate s.windowWidth s.windowHeight] else []) ∧
    recreations (acquireNextImage s result imageIndex).trace =
      (if result = VK_ERROR_OUT_OF_DATE_KHR then [(s.windowWidth, s.windowHeight)] else []) ∧
    queueSubmissions (acquireNextImage s result imageIndex).trace = [] ∧
    presentations (acquireNextImage s result imageIndex).trace = [] ∧
    (acquireNextImage s result imageIndex).result =
      (if result = VK_ERROR_OUT_OF_DATE_KHR then Except.ok (Ret.uint32 4294967295)
       else if result = VK_SUCCESS ∨ result = VK_SUBOPTIMAL_KHR then Except.ok (Ret.uint32 imageIndex)
       else Except.error Fault.failedAcquire) := by
  have hs : toUint32 (-1) = 4294967295 := by decide
  unfold acquireNextImage
  by_cases h1 : result = VK_ERROR_OUT_OF_DATE_KHR <;>
    by_cases h2 : result = VK_SUCCESS <;>
    by_cases h3 : result = VK_SUBOPTIMAL_KHR <;>
    simp [h1, h2, h3, hs, result_codes_distinct, recreations, queueSubmissions, presentations]

/-- C5: on a state that passes the extent check, when the graphics queue
submission succeeds one presentation is issued and its result decides the
outcome: success returns normally without `recreate`; out-of-date or
suboptimal calls `recreate` once with the pending width and height and returns
normally; anything else throws the presentation error without `recreate`.  In
both normal returns `currentFrame` becomes `(currentFrame + 1) % 2`; when the
presentation error or the queue submission error is thrown it is unchanged, and
in the latter case no presentation is issued. -/
theorem submit_present_outcomes (s : Synchronization) (imageIndex : Nat)
    (submitResult presentResult : VkResult) (h : extentSet s) :
    (submitResult = VK_SUCCESS →
      (presentations (submit s imageIndex submitResult presentResult).trace).length = 1 ∧
      (presentResult = VK_SUCCESS →
        (submit s imageIndex submitResult presentResult).result = Except.ok Ret.void ∧
        recreations (submit s imageIndex submitResult presentResult).trace = [] ∧
        (submit s imageIndex submitResult presentResult).state.currentFrame
          = (s.currentFrame + 1) % 2) ∧
      (presentResult = VK_ERROR_OUT_OF_DATE_KHR ∨ presentResult = VK_SUBOPTIMAL_KHR →
        (submit s imageIndex submitResult presentResult).result = Except.ok Ret.void ∧
        recreations (submit s imageIndex submitResult presentResult).trace
          = [(s.windowWidth, s.windowHeight)] ∧
        (submit s imageIndex submitResult presentResult).state.currentFrame
          = (s.currentFrame + 1) % 2) ∧
      (presentResult ≠ VK_SUCCESS ∧ presentResult ≠ VK_ERROR_OUT_OF_DATE_KHR ∧
          presentResult ≠ VK_SUBOPTIMAL_KHR →
        (submit s imageIndex submitResult presentResult).result
          = Except.error Fault.failedPresent ∧
        recreations (submit s imageIndex submitResult presentResult).trace = [] ∧
        (submit s imageIndex submitResult presentResult).state.currentFrame = s.currentFrame)) ∧
    (submitResult ≠ VK_SUCCESS →
      (submit s imageIndex submitResult presentResult).result
        = Except.error Fault.failedSubmitDraw ∧
      presentations (submit s imageIndex submitResult presentResult).trace = [] ∧
      recreations (submit s imageIndex submitResult presentResult).trace = [] ∧
      (submit s imageIndex submitResult presentResult).state.currentFrame = s.currentFrame) := by
  have hx : ¬ (s.windowWidth = -1 ∨ s.windowHeight = -1) := h
  unfold submit
  rw [if_neg hx]
  by_cases h1 : submitResult = VK_SUCCESS <;>
    by_cases h2 : presentResult = VK_ERROR_OUT_OF_DATE_KHR <;>
    by_cases h3 : presentResult = VK_SUBOPTIMAL_KHR <;>
    by_cases h4 : presentResult = VK_SUCCESS <;>
    simp [h1, h2, h3, h4, result_codes_distinct, recreations, presentations]

/-- Witness for C5: presentation on a suboptimal surface in slot 1 recreates
the swap-chain with the pending 800x600 extent and rotates to slot 0. -/
theorem submit_present_outcomes_witness :
    extentSet ⟨1, 800, 600, false⟩ ∧
    (submit ⟨1, 800, 600, false⟩ 2 VK_SUCCESS VK_SUBOPTIMAL_KHR).result = Except.ok Ret.void ∧
    recreations (submit ⟨1, 800, 600, false⟩ 2 VK_SUCCESS VK_SUBOPTIMAL_KHR).trace
      = [(800, 600)] ∧
    (submit ⟨1, 800, 600, false⟩ 2 VK_SUCCESS VK_SUBOPTIMAL_KHR).state.currentFrame = 0 :=
  ⟨by decide,
    ((submit_present_outcomes ⟨1, 800, 600, false⟩ 2 VK_SUCCESS VK_SUBOPTIMAL_KHR
      (by decide)).1 rfl).2.2.1 (Or.inr rfl)⟩

/-- C3: with a compute pass recorded and submitted in the frame, the graphics
submission of `submit` has two wait semaphores but a stage list of one entry:
the stage of the first wait semaphore is the color-attachment-output stage,
the stage of the second one is read past the end of the list. -/
theorem submit_waitStages_short :
    ∃ info : SubmitInfo,
      graphicsSubmissions
          (runTrace fresh
            [.pushWindowSize 800 600, .beginRecordingCompute VK_SUCCESS,
             .endRecordingCompute VK_SUCCESS, .submitCompute VK_SUCCESS,
             .submit 0 VK_SUCCESS VK_SUCCESS])
        = [(info, Fence.inFlight 0)] ∧
      info.waitSet = [Semaphore.imageAvailable 0, Semaphore.computeFinished 0] ∧
      info.pWaitDstStageMask.length = 1 ∧
      info.waitStage 0 = some VK_PIPELINE_STAGE_COLOR_ATTACHMENT_OUTPUT_BIT ∧
      info.waitStage 1 = none :=
  ⟨_, rfl, rfl, rfl, rfl, rfl⟩

/-- A `submit` that passes the extent check clears `computeInUse`, whatever the
device answers. -/
theorem submit_computeInUse_of_extentSet (s : Synchronization) (imageIndex : Nat)
    (submitResult presentResult : VkResult) (h : extentSet s) :
    (submit s imageIndex submitResult presentResult).state.computeInUse = false := by
  have hx : ¬ (s.windowWidth = -1 ∨ s.windowHeight = -1) := h
  unfold submit
  rw [if_neg hx]
  by_cases h1 : submitResult = VK_SUCCESS <;>
    by_cases h2 : presentResult = VK_ERROR_OUT_OF_DATE_KHR ∨ presentResult = VK_SUBOPTIMAL_KHR <;>
    by_cases h3 : presentResult = VK_SUCCESS <;>
    simp [h1, h2, h3, result_codes_distinct]

/-- A `submit` on a state whose pending extent has an unset component throws
the window-size error at once. -/
theorem submit_of_unset (s : Synchronization) (imageIndex : Nat)
    (submitResult presentResult : VkResult)
    (h : s.windowWidth = -1 ∨ s.windowHeight = -1) :
    submit s imageIndex submitResult presentResult =
      { state := s, trace := [], result := Except.error Fault.windowSizeNotPushed } := by
  unfold submit
  rw [if_pos h]

/-- A call other than `pushWindowSize` leaves the pending extent as it was. -/
theorem step_extent_of_not_push (t : Synchronization) (c : Call)
    (hc : c.isPushWindowSize = false) :
    (step t c).state.windowWidth = t.windowWidth ∧
      (step t c).state.windowHeight = t.windowHeight := by
  cases c with
  | pushWindowSize w h => simp [Call.isPushWindowSize] at hc
  | submit i r p =>
    simp only [step]
    unfold submit
    by_cases hx : t.windowWidth = -1 ∨ t.windowHeight = -1 <;>
      by_cases h1 : r = VK_SUCCESS <;>
      by_cases h2 : p = VK_ERROR_OUT_OF_DATE_KHR ∨ p = VK_SUBOPTIMAL_KHR <;>
      by_cases h3 : p = VK_SUCCESS <;>
      simp [hx, h1, h2, h3, result_codes_distinct]
  | acquireNextImage r i =>
    simp only [step]
    unfold acquireNextImage
    split_ifs <;> exact ⟨rfl, rfl⟩
  | _ => exact ⟨rfl, rfl⟩

/-- Over a sequence of calls without `pushWindowSize` the pending extent stays
as it was. -/
theorem run_extent_of_no_push (calls : List Call) :
    ∀ t : Synchronization, (∀ c ∈ calls, c.isPushWindowSize = false) →
      (run t calls).windowWidth = t.windowWidth ∧
        (run t calls).windowHeight = t.windowHeight := by
  induction calls with
  | nil => intro t _; exact ⟨rfl, rfl⟩
  | cons c cs ih =>
    intro t h
    have hc := step_extent_of_not_push t c (h c (List.mem_cons_self _ _))
    have hcs := ih (step t c).state (fun d hd => h d (List.mem_cons_of_mem _ hd))
    simp only [run]
    exact ⟨hcs.1.trans hc.1, hcs.2.trans hc.2⟩

/-- C7, as stated, fails: on a new controller, `beginRecordingCompute` followed
by `submit` (no extent pushed) ends with the window-size error and with
`computeInUse` still true. -/
theorem submit_keeps_computeInUse_when_extent_unset :
    (submit (run fresh [.beginRecordingCompute VK_SUCCESS]) 0 VK_SUCCESS VK_SUCCESS).result
      = Except.error Fault.windowSizeNotPushed ∧
    ¬ (submit (run fresh [.beginRecordingCompute VK_SUCCESS])
        0 VK_SUCCESS VK_SUCCESS).state.computeInUse = false :=
  ⟨rfl, by decide⟩

/-- C7, amended: after a `submit` that passes its extent check,
`computeInUse` is false, whatever its value on entry and whatever the device
answers to the queue submission and to the presentation (normal return,
submission error or presentation error). -/
theorem submit_clears_computeInUse (s : Synchronization) (imageIndex : Nat)
    (submitResult presentResult : VkResult) (h : extentSet s) :
    (submit s imageIndex submitResult presentResult).state.computeInUse = false :=
  submit_computeInUse_of_extentSet s imageIndex submitResult presentResult h

/-- Witness for C7 amended: a frame with a compute pass whose graphics queue
submission fails (result -4, device lost) still ends with the flag cleared. -/
theorem submit_clears_computeInUse_witness :
    extentSet
      (run fresh [.pushWindowSize 800 600, .beginRecordingCompute VK_SUCCESS,
        .endRecordingCompute VK_SUCCESS, .submitCompute VK_SUCCESS]) ∧
    (run fresh [.pushWindowSize 800 600, .beginRecordingCompute VK_SUCCESS,
        .endRecordingCompute VK_SUCCESS, .submitCompute VK_SUCCESS]).computeInUse = true ∧
    (submit
      (run fresh [.pushWindowSize 800 600, .beginRecordingCompute VK_SUCCESS,
        .endRecordingCompute VK_SUCCESS, .submitCompute VK_SUCCESS])
      0 (-4) VK_SUCCESS).state.computeInUse = false :=
  ⟨by decide, by decide, submit_clears_computeInUse _ 0 (-4) VK_SUCCESS (by decide)⟩

/-- C8: on a controller on which `pushWindowSize` was never called since
construction, and on any state whose pending width or height is -1,
`submit` throws the window-size error for every image index and every device
behaviour, makes no device call at all (no queue submission, presentation or
recreate) and leaves every field of the controller as it was. -/
theorem submit_requires_extent (s : Synchronization) (imageIndex : Nat)
    (submitResult presentResult : VkResult)
    (h : (∃ calls : List Call, (∀ c ∈ calls, c.isPushWindowSize = false) ∧ s = run fresh calls) ∨
      s.windowWidth = -1 ∨ s.windowHeight = -1) :
    (submit s imageIndex submitResult presentResult).result
      = Except.error Fault.windowSizeNotPushed ∧
    (submit s imageIndex submitResult presentResult).trace = [] ∧
    (submit s imageIndex submitResult presentResult).state = s := by
  have hu : s.windowWidth = -1 ∨ s.windowHeight = -1 := by
    rcases h with ⟨calls, hc, rfl⟩ | h
    · exact Or.inl (run_extent_of_no_push calls fresh hc).1
    · exact h
  rw [submit_of_unset s imageIndex submitResult presentResult hu]
  exact ⟨rfl, rfl, rfl⟩

/-- Witness for C8: construct, `beginRecordingCommands`, `endRecordingCommands`,
`submit`. -/
theorem submit_requires_extent_witness :
    (submit (run fresh [.beginRecordingCommands VK_SUCCESS, .endRecordingCommands VK_SUCCESS])
      0 VK_SUCCESS VK_SUCCESS).result = Except.error Fault.windowSizeNotPushed ∧
    (submit (run fresh [.beginRecordingCommands VK_SUCCESS, .endRecordingCommands VK_SUCCESS])
      0 VK_SUCCESS VK_SUCCESS).trace = [] ∧
    (submit (run fresh [.beginRecordingCommands VK_SUCCESS, .endRecordingCommands VK_SUCCESS])
      0 VK_SUCCESS VK_SUCCESS).state
      = run fresh [.beginRecordingCommands VK_SUCCESS, .endRecordingCommands VK_SUCCESS] :=
  submit_requires_extent _ 0 VK_SUCCESS VK_SUCCESS
    (Or.inl ⟨[.beginRecordingCommands VK_SUCCESS, .endRecordingCommands VK_SUCCESS],
      by decide, rfl⟩)

/-- C9: the second frame of a run calls `submit` without a `pushWindowSize`
of its own; the extent pushed in the first frame is still pending, so the
call does not throw the window-size error but submits, presents and returns
normally. -/
theorem submit_accepts_stale_extent :
    (run fresh [.pushWindowSize 800 600, .submit 0 VK_SUCCESS VK_SUCCESS]).windowWidth = 800 ∧
    (run fresh [.pushWindowSize 800 600, .submit 0 VK_SUCCESS VK_SUCCESS]).windowHeight = 600 ∧
    (submit (run fresh [.pushWindowSize 800 600, .submit 0 VK_SUCCESS VK_SUCCESS])
      1 VK_SUCCESS VK_SUCCESS).result = Except.ok Ret.void ∧
    (queueSubmissions
      (submit (run fresh [.pushWindowSize 800 600, .submit 0 VK_SUCCESS VK_SUCCESS])
        1 VK_SUCCESS VK_SUCCESS).trace).length = 1 ∧
    (presentations
      (submit (run fresh [.pushWindowSize 800 600, .submit 0 VK_SUCCESS VK_SUCCESS])
        1 VK_SUCCESS VK_SUCCESS).trace).length = 1 :=
  ⟨rfl, rfl, rfl, rfl, rfl⟩

/-- C10: on a new controller, an `acquireNextImage` whose acquire call reports
out-of-date asks the swap-chain to recreate itself with width -1 and
height -1. -/
theorem acquireNextImage_recreates_with_unset_extent :
    recreations (runTrace fresh [.acquireNextImage VK_ERROR_OUT_OF_DATE_KHR 0]) = [(-1, -1)] := by
  decide

/-- Every `recreate` made by `submit` gets a width and a height other than
-1: the extent check at its head guards the later call. -/
theorem submit_recreations_set (s : Synchronization) (imageIndex : Nat)
    (submitResult presentResult : VkResult) :
    ∀ e ∈ recreations (submit s imageIndex submitResult presentResult).trace,
      e.1 ≠ -1 ∧ e.2 ≠ -1 := by
  unfold submit
  by_cases hx : s.windowWidth = -1 ∨ s.windowHeight = -1 <;>
    by_cases h1 : submitResult = VK_SUCCESS <;>
    by_cases h2 : presentResult = VK_ERROR_OUT_OF_DATE_KHR ∨ presentResult = VK_SUBOPTIMAL_KHR <;>
    by_cases h3 : presentResult = VK_SUCCESS <;>
    simp [hx, h1, h2, h3, result_codes_distinct, recreations]
  all_goals
    push_neg at hx
    exact hx

end VKFS
